import Mathlib

/-!
Verification of the credential store and password-verification core of the
MovieProject repository (src/database/db.py and src/database/user_auth.py),
against its natural-language specification.

Python strings are modelled as `List Char`; byte strings as `List Nat` with
entries below 256. `hashlib.sha256(...).hexdigest()` is modelled by a full
executable SHA-256 (FIPS 180-4) over byte lists, rendered in lowercase hex,
and `str.encode()` by UTF-8 encoding.
-/

/-- Python `str` modelled as a list of characters. -/
abbrev Str := List Char

/-- Shorthand for the character list of a Lean string literal. -/
def lit (s : String) : Str := s.data

/- ## 32-bit word arithmetic (SHA-256 works on 32-bit words) -/

/-- Addition modulo 2^32. -/
def add32 (a b : Nat) : Nat := (a + b) % 4294967296

/-- Right rotation of a 32-bit word by `n` bits. -/
def rotr32 (n w : Nat) : Nat := ((w >>> n) ||| (w <<< (32 - n))) &&& 4294967295

/-- Bitwise complement of a 32-bit word. -/
def not32 (w : Nat) : Nat := w ^^^ 4294967295

/-- SHA-256 `Ch` function. -/
def ch32 (e f g : Nat) : Nat := (e &&& f) ^^^ (not32 e &&& g)

/-- SHA-256 `Maj` function. -/
def maj32 (a b c : Nat) : Nat := (a &&& b) ^^^ (a &&& c) ^^^ (b &&& c)

/-- SHA-256 big sigma 0. -/
def bsig0 (a : Nat) : Nat := rotr32 2 a ^^^ rotr32 13 a ^^^ rotr32 22 a

/-- SHA-256 big sigma 1. -/
def bsig1 (e : Nat) : Nat := rotr32 6 e ^^^ rotr32 11 e ^^^ rotr32 25 e

/-- SHA-256 small sigma 0. -/
def ssig0 (x : Nat) : Nat := rotr32 7 x ^^^ rotr32 18 x ^^^ (x >>> 3)

/-- SHA-256 small sigma 1. -/
def ssig1 (x : Nat) : Nat := rotr32 17 x ^^^ rotr32 19 x ^^^ (x >>> 10)

/-- The 64 SHA-256 round constants (FIPS 180-4, written in decimal). -/
def K256 : List Nat :=
  [1116352408, 1899447441, 3049323471, 3921009573,
   961987163, 1508970993, 2453635748, 2870763221,
   3624381080, 310598401, 607225278, 1426881987,
   1925078388, 2162078206, 2614888103, 3248222580,
   3835390401, 4022224774, 264347078, 604807628,
   770255983, 1249150122, 1555081692, 1996064986,
   2554220882, 2821834349, 2952996808, 3210313671,
   3336571891, 3584528711, 113926993, 338241895,
   666307205, 773529912, 1294757372, 1396182291,
   1695183700, 1986661051, 2177026350, 2456956037,
   2730485921, 2820302411, 3259730800, 3345764771,
   3516065817, 3600352804, 4094571909, 275423344,
   430227734, 506948616, 659060556, 883997877,
   958139571, 1322822218, 1537002063, 1747873779,
   1955562222, 2024104815, 2227730452, 2361852424,
   2428436474, 2756734187, 3204031479, 3329325298]

/-- The eight 32-bit words of a SHA-256 hash state. -/
structure H8 where
  a : Nat
  b : Nat
  c : Nat
  d : Nat
  e : Nat
  f : Nat
  g : Nat
  h : Nat
deriving DecidableEq

/-- SHA-256 initial hash value (FIPS 180-4, written in decimal). -/
def initH : H8 :=
  ⟨1779033703, 3144134277, 1013904242, 2773480762,
   1359893119, 2600822924, 528734635, 1541459225⟩

/-- Big-endian 8-byte rendering of a (64-bit) length value. -/
def len8 (n : Nat) : List Nat :=
  [(n >>> 56) &&& 255, (n >>> 48) &&& 255, (n >>> 40) &&& 255, (n >>> 32) &&& 255,
   (n >>> 24) &&& 255, (n >>> 16) &&& 255, (n >>> 8) &&& 255, n &&& 255]

/-- SHA-256 padding: append `0x80`, zeros to 56 mod 64, then the bit length. -/
def padMessage (ms : List Nat) : List Nat :=
  let l := ms.length
  let k := (119 - l % 64) % 64
  ms ++ [128] ++ List.replicate k 0 ++ len8 (8 * l)

/-- Split a byte list into 64-byte blocks, carrying the current partial block
in reverse (structural recursion so the kernel can evaluate it). -/
def toBlocksAux (cur : List Nat) : List Nat → List (List Nat)
  | [] => if cur = [] then [] else [cur.reverse]
  | b :: rest =>
    if cur.length = 63 then (b :: cur).reverse :: toBlocksAux [] rest
    else toBlocksAux (b :: cur) rest

/-- Split a byte list into 64-byte blocks. -/
def toBlocks (l : List Nat) : List (List Nat) := toBlocksAux [] l

/-- Group bytes four at a time into big-endian 32-bit words. -/
def toWords : List Nat → List Nat
  | a :: b :: c :: d :: rest => (((a * 256 + b) * 256 + c) * 256 + d) :: toWords rest
  | _ => []

/-- One step of the SHA-256 message-schedule extension. -/
def scheduleStep (w : List Nat) : List Nat :=
  let n := w.length
  w ++ [add32 (add32 (ssig1 (w.getD (n - 2) 0)) (w.getD (n - 7) 0))
              (add32 (ssig0 (w.getD (n - 15) 0)) (w.getD (n - 16) 0))]

/-- Extend 16 message words to the full 64-entry schedule. -/
def schedule (ws : List Nat) : List Nat :=
  (List.range 48).foldl (fun w _ => scheduleStep w) ws

/-- One SHA-256 compression round: update the working variables with `k + w`. -/
def round256 (v : H8) (kw : Nat × Nat) : H8 :=
  let t1 := add32 v.h (add32 (bsig1 v.e) (add32 (ch32 v.e v.f v.g) (add32 kw.1 kw.2)))
  let t2 := add32 (bsig0 v.a) (maj32 v.a v.b v.c)
  ⟨add32 t1 t2, v.a, v.b, v.c, add32 v.d t1, v.e, v.f, v.g⟩

/-- Compress one 64-byte block into the running hash state. -/
def compressBlock (st : H8) (block : List Nat) : H8 :=
  let w := schedule (toWords block)
  let t := (K256.zip w).foldl round256 st
  ⟨add32 st.a t.a, add32 st.b t.b, add32 st.c t.c, add32 st.d t.d,
   add32 st.e t.e, add32 st.f t.f, add32 st.g t.g, add32 st.h t.h⟩

/-- Big-endian byte rendering of a 32-bit word. -/
def w2b (w : Nat) : List Nat :=
  [(w >>> 24) &&& 255, (w >>> 16) &&& 255, (w >>> 8) &&& 255, w &&& 255]

/-- SHA-256 of a byte string, as 32 bytes (models `hashlib.sha256(..).digest()`). -/
def sha256 (ms : List Nat) : List Nat :=
  let fin := (toBlocks (padMessage ms)).foldl compressBlock initH
  w2b fin.a ++ w2b fin.b ++ w2b fin.c ++ w2b fin.d ++
  w2b fin.e ++ w2b fin.f ++ w2b fin.g ++ w2b fin.h

/-- Lowercase hexadecimal digit characters, index 0 to 15 (default left at
the zero digit so the function is total, as `hex` in Python only ever sees
values below 16). -/
def hexDigit : Nat → Char
  | 0 => '0' | 1 => '1' | 2 => '2' | 3 => '3' | 4 => '4' | 5 => '5'
  | 6 => '6' | 7 => '7' | 8 => '8' | 9 => '9' | 10 => 'a' | 11 => 'b'
  | 12 => 'c' | 13 => 'd' | 14 => 'e' | 15 => 'f' | _ => '0'

/-- Two lowercase hex characters of one byte. -/
def byteHex (b : Nat) : List Char := [hexDigit ((b >>> 4) &&& 15), hexDigit (b &&& 15)]

/-- Lowercase hex rendering of a byte string (models `bytes.hex()` and the
rendering inside `hexdigest()`). -/
def bytesToHex (bs : List Nat) : List Char := bs.flatMap byteHex

/-- Models `hashlib.sha256(ms).hexdigest()`. -/
def sha256hex (ms : List Nat) : Str := bytesToHex (sha256 ms)

/-- UTF-8 bytes of one character (what Python `str.encode()` does per char). -/
def utf8Char (c : Char) : List Nat :=
  let n := c.toNat
  if n < 128 then [n]
  else if n < 2048 then [192 ||| (n >>> 6), 128 ||| (n &&& 63)]
  else if n < 65536 then
    [224 ||| (n >>> 12), 128 ||| ((n >>> 6) &&& 63), 128 ||| (n &&& 63)]
  else
    [240 ||| (n >>> 18), 128 ||| ((n >>> 12) &&& 63),
     128 ||| ((n >>> 6) &&& 63), 128 ||| (n &&& 63)]

/-- Models Python `str.encode()` (UTF-8). -/
def utf8Encode (s : Str) : List Nat := s.flatMap utf8Char

/- ## src/database/user_auth.py : hash_password -/

/-- `hash_password(password, salt)` from src/database/user_auth.py with the
salt supplied by the caller: hash `password + salt`, return `salt:hash`.
(When no salt is supplied the source generates one as `os.urandom(32).hex()`;
that nondeterministic branch is modelled by `genSalt` below.) -/
def hash_password (password salt : Str) : Str :=
  let password_with_salt := utf8Encode (password ++ salt)
  let hashed := sha256hex password_with_salt
  salt ++ ':' :: hashed

/-- Models `os.urandom(32).hex()`: the hex rendering of the 32 random bytes,
taking the bytes as a parameter in place of the entropy source. -/
def genSalt (randomBytes : List Nat) : Str := bytesToHex randomBytes

/- ## src/database/user_auth.py : verify_user, and src/database/db.py -/

/-- The users table of src/database/db.py: rows of (username, password),
where the password column holds the credential string. The TEXT PRIMARY KEY
on username makes rows unique per username. -/
abbrev UsersTable := List (Str × Str)

/-- `SELECT password FROM users WHERE username=?` followed by `fetchone()`:
first row whose username column equals the query exactly (SQLite compares
TEXT with the default BINARY collation, i.e. exact, case-sensitive equality). -/
def lookupUser : UsersTable → Str → Option Str
  | [], _ => none
  | (u, p) :: rest, q => if u = q then some p else lookupUser rest q

/-- Python `':' in stored_password`. -/
def hasColon (s : Str) : Bool := s.any (fun c => c == ':')

/-- The part of `s.split(':', 1)` before the first `':'`. -/
def splitHead (s : Str) : Str := s.takeWhile (fun c => c != ':')

/-- The part of `s.split(':', 1)` after the first `':'`. -/
def splitTail (s : Str) : Str := (s.dropWhile (fun c => c != ':')).drop 1

/-- Python `s.split(':', 1)`: at most one split at the first `':'`; a single
element when no `':'` occurs. -/
def pySplit1 (s : Str) : List Str :=
  if hasColon s then [splitHead s, splitTail s] else [s]

/-- The comparison path of `verify_user` once the stored credential is in
hand (lines 37-43 of src/database/user_auth.py). -/
def verifyStored (stored password : Str) : Bool :=
  if hasColon stored then
    let salt := splitHead stored
    let hashed_input := hash_password password salt
    hashed_input == stored
  else
    sha256hex (utf8Encode password) == stored

/-- `verify_user(username, password)` over a users table (the SELECT plus the
comparison path); `None` from `fetchone()` yields `False`. -/
def verify_user (db : UsersTable) (username password : Str) : Bool :=
  match lookupUser db username with
  | none => false
  | some stored => verifyStored stored password

/-- The one Python exception the comparison path could raise: the tuple
unpacking `salt, _ = stored_password.split(':', 1)` raises ValueError when
the split does not produce exactly two parts. -/
inductive PyExn
  | valueError
deriving DecidableEq

/-- Tuple unpacking `salt, _ = parts` with its Python failure mode made
explicit: ValueError unless there are exactly two parts. -/
def unpack2 : List Str → Except PyExn (Str × Str)
  | [x, y] => Except.ok (x, y)
  | _ => Except.error PyExn.valueError

/-- The comparison path of `verify_user` with every potentially raising step
modelled in `Except` (string concatenation, `encode()` and the hash itself
are total in Python on `str` inputs; only the unpacking can raise). -/
def verifyStoredE (stored password : Str) : Except PyExn Bool :=
  if hasColon stored then do
    let sp ← unpack2 (pySplit1 stored)
    let hashed_input := hash_password password sp.1
    pure (hashed_input == stored)
  else
    pure (sha256hex (utf8Encode password) == stored)

/- ## Storage-layer error model -/

/-- sqlite errors relevant here: `storage` stands for the storage-layer
failures (file unavailable, missing table, locked database, disk error);
`integrity` is the IntegrityError raised on a PRIMARY KEY conflict. -/
inductive DbErr
  | storage
  | integrity
deriving DecidableEq

/-- The database state: `none` when the users table does not exist. -/
abbrev DbState := Option UsersTable

/-- `connect_db()` from src/database/db.py, with the availability of the
database file as a parameter: opening an unavailable file fails with a
storage error. -/
def connect_db (fileAvailable : Bool) : Except DbErr Unit :=
  if fileAvailable then Except.ok () else Except.error DbErr.storage

/-- `create_users_table()` from src/database/db.py: connect, then
`CREATE TABLE IF NOT EXISTS` (keeps an existing table, creates an empty one
otherwise). No exception handler: errors propagate. -/
def create_users_table (fileAvailable : Bool) (db : DbState) : Except DbErr DbState := do
  connect_db fileAvailable
  pure (some (db.getD []))

/-- `cursor.execute("INSERT INTO users(username,password) VALUES (?,?)", ..)`:
fails with a storage error when the users table is missing (OperationalError)
or when `exeFault` injects a storage-layer fault (locked database, disk
error); fails with IntegrityError when the username already exists
(PRIMARY KEY); otherwise appends the row. -/
def executeInsert (exeFault : Bool) (db : DbState) (u cred : Str) : Except DbErr UsersTable :=
  match db with
  | none => Except.error DbErr.storage
  | some users =>
    if exeFault then Except.error DbErr.storage
    else if (lookupUser users u).isSome then Except.error DbErr.integrity
    else Except.ok (users ++ [(u, cred)])

/-- The body of `add_test_user()` with the inserted row as parameters:
connect (outside the `try`, so its errors propagate), then
`try: execute; commit; except: pass` — the bare `except` turns ANY error
from the execute/commit into a silent no-op that leaves the table as it was
(nothing was committed). -/
def insertUserOp (fileAvailable exeFault : Bool) (db : DbState) (u cred : Str) :
    Except DbErr DbState := do
  connect_db fileAvailable
  match executeInsert exeFault db u cred with
  | Except.ok users => pure (some users)
  | Except.error _ => pure db

/-- `add_test_user()` from src/database/user_auth.py: insert the row
`("admin", hash_password("admin123"))`, with the `os.urandom(32)` salt bytes
taken as a parameter. -/
def add_test_user (fileAvailable exeFault : Bool) (saltBytes : List Nat) (db : DbState) :
    Except DbErr DbState :=
  insertUserOp fileAvailable exeFault db (lit "admin")
    (hash_password (lit "admin123") (genSalt saltBytes))

/-- `verify_user` with the storage layer explicit: connect (errors
propagate — there is no exception handler in `verify_user`), run the SELECT
(fails if the table is missing), then the pure comparison. -/
def verify_userE (fileAvailable : Bool) (db : DbState) (username password : Str) :
    Except DbErr Bool := do
  connect_db fileAvailable
  match db with
  | none => Except.error DbErr.storage
  | some users => pure (verify_user users username password)

/-- The lowercase hex alphabet (the characters `hexdigest()` can emit). -/
def lowerHexAlphabet : Str := lit "0123456789abcdef"

/- ## Helper lemmas -/

/-- Every hex digit character differs from the separator `':'`. -/
theorem hexDigit_ne_colon (n : Nat) : hexDigit n ≠ ':' := by
  unfold hexDigit
  split <;> decide

/-- `':'` never occurs among the hex characters of a byte. -/
theorem colon_notMem_byteHex (b : Nat) : ':' ∉ byteHex b := by
  simp [byteHex]
  exact ⟨(hexDigit_ne_colon _).symm, (hexDigit_ne_colon _).symm⟩

/-- `':'` never occurs in a hex rendering of bytes. -/
theorem colon_notMem_bytesToHex (bs : List Nat) : ':' ∉ bytesToHex bs := by
  intro hmem
  rcases List.mem_flatMap.mp hmem with ⟨b, _, hb⟩
  exact colon_notMem_byteHex b hb

/-- A generated salt contains no `':'`. -/
theorem colon_notMem_genSalt (bs : List Nat) : ':' ∉ genSalt bs :=
  colon_notMem_bytesToHex bs

/-- Hex rendering doubles the length. -/
theorem length_bytesToHex (bs : List Nat) : (bytesToHex bs).length = 2 * bs.length := by
  induction bs with
  | nil => rfl
  | cons b rest ih =>
    simp [bytesToHex, byteHex] at ih ⊢
    omega

/-- A SHA-256 digest is 32 bytes. -/
theorem length_sha256 (ms : List Nat) : (sha256 ms).length = 32 := by
  simp [sha256, w2b]

/-- A SHA-256 hexdigest is 64 characters. -/
theorem length_sha256hex (ms : List Nat) : (sha256hex ms).length = 64 := by
  simp [sha256hex, length_bytesToHex, length_sha256]

/-- Any string of the shape `x:y` is seen as salted format. -/
theorem hasColon_append (x d : Str) : hasColon (x ++ ':' :: d) = true := by
  simp [hasColon, List.any_append]

/-- Splitting `salt:rest` at the first colon recovers a colon-free salt. -/
theorem splitHead_append_colon (salt d : Str) (h : ':' ∉ salt) :
    splitHead (salt ++ ':' :: d) = salt := by
  induction salt with
  | nil => simp [splitHead]
  | cons c s ih =>
    have hc : c ≠ ':' := fun e => h (by simp [e])
    have hs : ':' ∉ s := fun m => h (List.mem_cons_of_mem _ m)
    have ih2 := ih hs
    simp only [splitHead] at ih2 ⊢
    simp [List.takeWhile_cons, hc, ih2]

/-- When the salt itself contains a colon, the split stops inside the salt. -/
theorem splitHead_append_of_mem (s t : Str) (h : ':' ∈ s) :
    splitHead (s ++ t) = splitHead s := by
  induction s with
  | nil => cases h
  | cons c s ih =>
    by_cases hc : c = ':'
    · subst hc
      simp [splitHead, List.takeWhile_cons]
    · have hs : ':' ∈ s := by
        rcases List.mem_cons.mp h with h1 | h2
        · exact absurd h1.symm hc
        · exact h2
      have ih2 := ih hs
      simp only [splitHead] at ih2 ⊢
      simp [List.takeWhile_cons, hc, ih2]

/-- When a string contains a colon, the part before the first colon is
strictly shorter than the string. -/
theorem length_splitHead_lt (s : Str) (h : ':' ∈ s) :
    (splitHead s).length < s.length := by
  induction s with
  | nil => cases h
  | cons c s ih =>
    by_cases hc : c = ':'
    · subst hc
      simp [splitHead, List.takeWhile_cons]
    · have hs : ':' ∈ s := by
        rcases List.mem_cons.mp h with h1 | h2
        · exact absurd h1.symm hc
        · exact h2
      have ih2 := ih hs
      simp only [splitHead] at ih2 ⊢
      simp [List.takeWhile_cons, hc]
      omega

/-- Round-trip core: with a colon-free salt, verifying the very password the
credential was built from succeeds. -/
theorem verifyStored_hash_self (P salt : Str) (h : ':' ∉ salt) :
    verifyStored (hash_password P salt) P = true := by
  have hhp : hash_password P salt = salt ++ ':' :: sha256hex (utf8Encode (P ++ salt)) := rfl
  have hcol := hasColon_append salt (sha256hex (utf8Encode (P ++ salt)))
  have hsp := splitHead_append_colon salt (sha256hex (utf8Encode (P ++ salt))) h
  rw [hhp]
  simp [verifyStored, hcol, hsp, hhp]

/-- Rejection core: with a colon-free salt, verifying a password whose
digest differs from the stored one fails. -/
theorem verifyStored_hash_wrong (P1 P2 salt : Str) (h : ':' ∉ salt)
    (hd : sha256hex (utf8Encode (P2 ++ salt)) ≠ sha256hex (utf8Encode (P1 ++ salt))) :
    verifyStored (hash_password P1 salt) P2 = false := by
  have hhp1 : hash_password P1 salt = salt ++ ':' :: sha256hex (utf8Encode (P1 ++ salt)) := rfl
  have hhp2 : hash_password P2 salt = salt ++ ':' :: sha256hex (utf8Encode (P2 ++ salt)) := rfl
  have hcol := hasColon_append salt (sha256hex (utf8Encode (P1 ++ salt)))
  have hsp := splitHead_append_colon salt (sha256hex (utf8Encode (P1 ++ salt))) h
  rw [hhp1]
  simp [verifyStored, hcol, hsp, hhp2]
  intro heq
  exact hd heq

/-- Every hex digit character is in the lowercase hex alphabet. -/
theorem hexDigit_mem_lowerHex (n : Nat) : lowerHexAlphabet.contains (hexDigit n) = true := by
  unfold hexDigit
  split <;> decide

/-- A hex rendering consists only of lowercase hex characters. -/
theorem bytesToHex_all_lowerHex (bs : List Nat) :
    (bytesToHex bs).all (fun c => lowerHexAlphabet.contains c) = true := by
  rw [List.all_eq_true]
  intro c hc
  rcases List.mem_flatMap.mp hc with ⟨b, _, hb⟩
  simp only [byteHex, List.mem_cons, List.not_mem_nil, or_false] at hb
  rcases hb with h1 | h2
  · rw [h1]; exact hexDigit_mem_lowerHex _
  · rw [h2]; exact hexDigit_mem_lowerHex _

/- ## Claim theorems -/

/-- C1: Round-trip — for every username `u` and every password string `P`
(including strings containing `':'`), if the store maps `u` to
`hash_password(P)` with a freshly generated salt, then `verify_user(u, P)`
returns true. -/
theorem C1_round_trip (db : UsersTable) (u P : Str) (bs : List Nat)
    (hstore : lookupUser db u = some (hash_password P (genSalt bs))) :
    verify_user db u P = true := by
  simp only [verify_user]
  rw [hstore]
  exact verifyStored_hash_self P (genSalt bs) (colon_notMem_genSalt bs)

/-- C2: Hash reference definition and determinism — `hash_password(p, s)` is
exactly `s ++ ":" ++ d` with `d` the lowercase hex rendering of
`SHA-256(p || s)`; being a function of `(p, s)`, the same password and salt
always yield the same output. -/
theorem C2_hash_reference (p s : Str) :
    hash_password p s = s ++ ':' :: sha256hex (utf8Encode (p ++ s)) ∧
    (sha256hex (utf8Encode (p ++ s))).all (fun c => lowerHexAlphabet.contains c) = true :=
  ⟨rfl, bytesToHex_all_lowerHex _⟩

/-- C3: Wrong password rejection — with the credential stored for `u` built
by `hash_password(P1)` (generated salt), and SHA-256 collision-free on the
two compared inputs, `verify_user(u, P2)` is false for `P2 ≠ P1`. -/
theorem C3_wrong_password (db : UsersTable) (u P1 P2 : Str) (bs : List Nat)
    (hstore : lookupUser db u = some (hash_password P1 (genSalt bs)))
    (hne : P1 ≠ P2)
    (hcr : sha256hex (utf8Encode (P2 ++ genSalt bs)) =
             sha256hex (utf8Encode (P1 ++ genSalt bs)) → P2 = P1) :
    verify_user db u P2 = false := by
  have hd : sha256hex (utf8Encode (P2 ++ genSalt bs)) ≠
      sha256hex (utf8Encode (P1 ++ genSalt bs)) := fun e => hne (hcr e).symm
  simp only [verify_user]
  rw [hstore]
  exact verifyStored_hash_wrong P1 P2 (genSalt bs) (colon_notMem_genSalt bs) hd

/-- C4: Legacy fallback — when the credential stored for `u` contains no
`':'`, `verify_user(u, P)` is true exactly when the bare lowercase SHA-256
hexdigest of `P` equals the stored string. -/
theorem C4_legacy_fallback (db : UsersTable) (u P stored : Str)
    (hstore : lookupUser db u = some stored)
    (hnc : hasColon stored = false) :
    (verify_user db u P = true ↔ sha256hex (utf8Encode P) = stored) := by
  simp only [verify_user]
  rw [hstore]
  simp [verifyStored, hnc]

/-- C5: Unknown user rejection — with no record for `u`, `verify_user(u, P)`
returns false, and in the storage-explicit model the call returns the value
`ok false` (no exception), indistinguishable from a wrong-password result. -/
theorem C5_unknown_user (users : UsersTable) (u P : Str)
    (h : lookupUser users u = none) :
    verify_user users u P = false ∧
    verify_userE true (some users) u P = Except.ok false := by
  have h1 : verify_user users u P = false := by simp [verify_user, h]
  exact ⟨h1, by simp [verify_userE, connect_db, h1]⟩

/-- C6: Exception absorption in verification — the comparison path, with its
one potentially raising step (the tuple unpacking of `split(':', 1)`) made
explicit, never raises: it always returns `ok` of the boolean that
`verify_user` hands to its caller, for every stored string however
malformed. -/
theorem C6_comparison_total (stored password : Str) :
    verifyStoredE stored password = Except.ok (verifyStored stored password) := by
  by_cases hc : hasColon stored = true
  · simp [verifyStoredE, verifyStored, pySplit1, hc, unpack2]
  · simp at hc
    simp [verifyStoredE, verifyStored, hc, pure, Except.pure]

/-- C7: the bare `except: pass` in `add_test_user` swallows storage-layer
failures from the INSERT/commit (missing users table; injected storage
fault), returning success with the table unchanged instead of propagating
the storage error as the spec requires. -/
theorem C7_insert_swallows_storage_error :
    add_test_user true false [] none = Except.ok none ∧
    add_test_user true true [] (some []) = Except.ok (some []) :=
  ⟨rfl, rfl⟩

/-- C8: Duplicate insert is an ignore-on-conflict no-op — inserting
`(u, credB)` when `u` already maps to `credA` raises nothing (the result is
`ok`) and leaves the table unchanged, so `credA` stays retrievable and
`credB` is discarded. -/
theorem C8_duplicate_insert_noop (users : UsersTable) (u credA credB : Str)
    (h : lookupUser users u = some credA) :
    insertUserOp true false (some users) u credB = Except.ok (some users) ∧
    lookupUser users u = some credA := by
  have hs : (lookupUser users u).isSome = true := by simp [h]
  exact ⟨by simp [insertUserOp, connect_db, executeInsert, hs], h⟩

/-- C9: Case-sensitive username matching — after seeding `admin` with
`hash_password("admin123")` (generated salt), verification succeeds for
`("admin", "admin123")`, fails for `("admin", "wrong")` given SHA-256
collision-freeness on the compared inputs, and fails for
`("Admin", "admin123")` because the lookup is exact and case-sensitive. -/
theorem C9_case_sensitive (bs : List Nat)
    (hw : sha256hex (utf8Encode (lit "wrong" ++ genSalt bs)) ≠
            sha256hex (utf8Encode (lit "admin123" ++ genSalt bs))) :
    verify_user [(lit "admin", hash_password (lit "admin123") (genSalt bs))]
        (lit "admin") (lit "admin123") = true ∧
    verify_user [(lit "admin", hash_password (lit "admin123") (genSalt bs))]
        (lit "admin") (lit "wrong") = false ∧
    verify_user [(lit "admin", hash_password (lit "admin123") (genSalt bs))]
        (lit "Admin") (lit "admin123") = false := by
  have hne : lit "admin" ≠ lit "Admin" := by decide
  refine ⟨?_, ?_, ?_⟩
  · simp only [verify_user, lookupUser, if_pos rfl]
    exact verifyStored_hash_self _ _ (colon_notMem_genSalt bs)
  · simp only [verify_user, lookupUser, if_pos rfl]
    exact verifyStored_hash_wrong _ _ _ (colon_notMem_genSalt bs) hw
  · simp [verify_user, lookupUser, hne]

/-- C10: a caller-supplied salt containing `':'` breaks the round-trip:
`verify_user` splits the stored credential at the FIRST `':'`, recovers only
a strict prefix of the salt, and the recomputed credential can never equal
the stored one (their lengths differ), so verification returns false. -/
theorem C10_salt_with_colon (db : UsersTable) (u P s : Str)
    (hs : ':' ∈ s)
    (hstore : lookupUser db u = some (hash_password P s)) :
    verify_user db u P = false := by
  simp only [verify_user]
  rw [hstore]
  have hhp : hash_password P s = s ++ ':' :: sha256hex (utf8Encode (P ++ s)) := rfl
  rw [hhp]
  have hcol := hasColon_append s (sha256hex (utf8Encode (P ++ s)))
  simp only [verifyStored, hcol, if_true]
  rw [splitHead_append_of_mem s (':' :: sha256hex (utf8Encode (P ++ s))) hs]
  rw [beq_eq_false_iff_ne]
  intro heq
  have hlen := congrArg List.length heq
  have hlt := length_splitHead_lt s hs
  simp [hash_password, length_sha256hex] at hlen
  omega

/- ## Witnesses -/

/-- Witness for C1 at a password containing `':'` and the generated salt "ab". -/
theorem C1_round_trip_witness :
    verify_user [(lit "alice", hash_password (lit "pa:ss") (genSalt [171]))]
      (lit "alice") (lit "pa:ss") = true :=
  C1_round_trip _ _ _ [171] (by decide)

/-- Witness for C3: the seeded admin record rejects the password "wrong". -/
theorem C3_wrong_password_witness :
    verify_user [(lit "admin", hash_password (lit "admin123") (genSalt [171]))]
      (lit "admin") (lit "wrong") = false :=
  C3_wrong_password [(lit "admin", hash_password (lit "admin123") (genSalt [171]))]
    (lit "admin") (lit "admin123") (lit "wrong") [171] (by decide) (by decide) (by decide)

/-- Witness for C4: a bare digest of "secret" verifies the password "secret". -/
theorem C4_legacy_fallback_witness :
    verify_user [(lit "legacyuser", sha256hex (utf8Encode (lit "secret")))]
      (lit "legacyuser") (lit "secret") = true :=
  (C4_legacy_fallback _ _ _ _ (by decide) (by decide)).mpr rfl

/-- Witness for C5 on the empty store. -/
theorem C5_unknown_user_witness :
    verify_user [] (lit "nonexistent") (lit "anything") = false ∧
    verify_userE true (some []) (lit "nonexistent") (lit "anything") = Except.ok false :=
  C5_unknown_user [] (lit "nonexistent") (lit "anything") (by decide)

/-- Witness for C8 at a concrete duplicate insert. -/
theorem C8_duplicate_insert_noop_witness :
    insertUserOp true false (some [(lit "admin", lit "credA")]) (lit "admin") (lit "credB") =
      Except.ok (some [(lit "admin", lit "credA")]) ∧
    lookupUser [(lit "admin", lit "credA")] (lit "admin") = some (lit "credA") :=
  C8_duplicate_insert_noop _ _ _ _ (by decide)

/-- Witness for C9 with the generated salt "5a". -/
theorem C9_case_sensitive_witness :
    verify_user [(lit "admin", hash_password (lit "admin123") (genSalt [90]))]
        (lit "admin") (lit "admin123") = true ∧
    verify_user [(lit "admin", hash_password (lit "admin123") (genSalt [90]))]
        (lit "admin") (lit "wrong") = false ∧
    verify_user [(lit "admin", hash_password (lit "admin123") (genSalt [90]))]
        (lit "Admin") (lit "admin123") = false :=
  C9_case_sensitive [90] (by decide)

/-- Witness for C10 with the colon-carrying salt "x:y". -/
theorem C10_salt_with_colon_witness :
    verify_user [(lit "eve", hash_password (lit "pw") (lit "x:y"))]
      (lit "eve") (lit "pw") = false :=
  C10_salt_with_colon [(lit "eve", hash_password (lit "pw") (lit "x:y"))]
    (lit "eve") (lit "pw") (lit "x:y") (by decide) (by decide)
